import Mathlib

/-!
Verification of the octobot HTTP(S) request-dispatch core
(src/server/http.rs and src/server/main.rs).

Shallow embedding conventions:
* hyper `Request<Body>` / `Response<Body>` become plain Lean structures; a
  request body is the stream of its chunks (each chunk a byte list), which
  `concat2` joins, matching `req.into_body().concat2()`.
* Futures are modeled by their resolved values (`future::ok(resp)` resolves
  to `resp`), so an asynchronous `handle` is a function to `Response`.
* Trait objects (`Box<dyn Filter>`, `Box<dyn Handler>`) become function
  fields.  Where a claim is about how often such a dynamic callee is
  invoked, the same source code is also embedded in state-passing form
  (`handleS`), so that a spy filter/handler threading a counter through the
  calls observes exactly the invocations the Rust code performs.
* Side-effecting logging (`error!`, `warn!`) becomes an explicit list of
  log lines in the result.
* Rust panics (`panic!`, `.unwrap()`, `.expect(..)`) and the `?` operator
  become `Except.error`: startup code that can abort returns
  `Except String _`.
* Library and repository code outside the two given files (the `util`
  response helpers, `RedirectService`, serde, tokio, the file system) is
  either taken as an explicit parameter or modelled from the spec; every
  such definition says so in its doc comment.
-/

/-- An HTTP request: method, uri, headers, and the body as a stream of
byte chunks (hyper `Body` is consumed chunk by chunk). -/
structure Request where
  method : String
  uri : String
  headers : List (String × String)
  body : List (List Nat)
deriving DecidableEq, Repr

/-- An HTTP response: status code, headers, body bytes (kept as a string,
as every response body in this core is built from a string message). -/
structure Response where
  status : Nat
  headers : List (String × String)
  body : String
deriving DecidableEq, Repr

/-- Modelled from the spec: `util::new_msg_resp` (the `util` module is not
part of this fragment).  The spec describes it as building "a response with
an arbitrary status and a plain-text message". -/
def new_msg_resp (status : Nat) (msg : String) : Response :=
  { status := status, headers := [], body := msg }

/-- Modelled from the spec: `util::new_empty_resp` (the `util` module is
not part of this fragment).  The spec describes it as building "an
empty-bodied response" with the given status. -/
def new_empty_resp (status : Nat) : Response :=
  { status := status, headers := [], body := "" }

/-- Modelled from the spec: `util::new_bad_req_resp` (the `util` module is
not part of this fragment).  The spec describes the bad-request helper as
producing "a 400 response whose message names the parse failure". -/
def new_bad_req_resp (msg : String) : Response :=
  new_msg_resp 400 msg

/-- `Handler::respond_with` (src/server/http.rs): delegates to
`util::new_msg_resp(status, msg)`. -/
def Handler.respond_with (status : Nat) (msg : String) : Response :=
  new_msg_resp status msg

/-- `Handler::respond_error` (src/server/http.rs):
`error!("InternalServerError: {}", err)` then
`util::new_empty_resp(StatusCode::INTERNAL_SERVER_ERROR)`.
The result pairs the response with the emitted log lines. -/
def Handler.respond_error (err : String) : Response × List String :=
  (new_empty_resp 500, ["InternalServerError: " ++ err])

/-- `FilterResult` (src/server/http.rs): `Halt(Response)` or `Continue`. -/
inductive FilterResult where
  | Halt (resp : Response)
  | Continue
deriving DecidableEq, Repr

/-- `FilteredHandler` (src/server/http.rs): owns one filter and one
handler; the trait objects become function fields. -/
structure FilteredHandler where
  filter : Request → FilterResult
  handler : Request → Response

/-- `FilteredHandler::new` (src/server/http.rs). -/
def FilteredHandler.new (filter : Request → FilterResult)
    (handler : Request → Response) : FilteredHandler :=
  { filter := filter, handler := handler }

/-- `impl Handler for FilteredHandler` (src/server/http.rs): match on
`self.filter.filter(&req)`; `Halt(resp)` resolves to `resp`
(`future::ok(resp)`), `Continue` delegates to `self.handler.handle(req)`. -/
def FilteredHandler.handle (fh : FilteredHandler) (req : Request) : Response :=
  match fh.filter req with
  | FilterResult.Halt resp => resp
  | FilterResult.Continue => fh.handler req

/-- The same `FilteredHandler::handle` body in state-passing form: the
dynamic filter and handler calls thread a state `σ`, so a spy
implementation can record its invocations (the spec suggests verifying
non-invocation "via a spy handler that records invocation count").  The
match structure is exactly that of the source. -/
def handleS {σ : Type} (filter : Request → σ → FilterResult × σ)
    (handler : Request → σ → Response × σ) (req : Request) (s : σ) :
    Response × σ :=
  match filter req s with
  | (FilterResult.Halt resp, _s1) => (resp, _s1)
  | (FilterResult.Continue, s1) => handler req s1

/-- A spy filter wrapping a pure filter `f`: behaves as `f` and counts its
own invocations in the first state component. -/
def spyFilter (f : Request → FilterResult) :
    Request → Nat × Nat → FilterResult × (Nat × Nat) :=
  fun r s => (f r, (s.1 + 1, s.2))

/-- A spy handler wrapping a pure handler `h`: behaves as `h` and counts
its own invocations in the second state component. -/
def spyHandler (h : Request → Response) :
    Request → Nat × Nat → Response × (Nat × Nat) :=
  fun r s => (h r, (s.1, s.2 + 1))

/-- A spy handler that, when invoked, records the filter-invocation count
it observes at call time. -/
def spyHandlerSees (h : Request → Response) :
    Request → Nat × Option Nat → Response × (Nat × Option Nat) :=
  fun r s => (h r, (s.1, some s.1))

/-- A spy filter for the `Nat × Option Nat` state: counts filter calls in
the first component. -/
def spyFilterC (f : Request → FilterResult) :
    Request → Nat × Option Nat → FilterResult × (Nat × Option Nat) :=
  fun r s => (f r, (s.1 + 1, s.2))

/-- `impl Handler for NotFoundHandler` (src/server/http.rs):
`util::new_empty_resp(StatusCode::NOT_FOUND)` for any request. -/
def NotFoundHandler.handle (_req : Request) : Response :=
  new_empty_resp 404

/-- `req.into_body().concat2()` (src/server/http.rs, `parse_json`):
concatenates every chunk of the body stream. -/
def concat2 (body : List (List Nat)) : List Nat :=
  body.flatten

/-- `parse_json` (src/server/http.rs).  `serde_json::from_slice` is
external library code and is taken as the parameter `fromSlice`
(returning `Except` like serde).  The whole body is concatenated
(`concat2`), parsed, and on success the continuation `func` is applied;
on failure a bad-request response naming the parse error is returned. -/
def parse_json {T : Type} (fromSlice : List Nat → Except String T)
    (req : Request) (func : T → Response) : Response :=
  match fromSlice (concat2 req.body) with
  | Except.ok l => func l
  | Except.error e => new_bad_req_resp ("Failed to parse JSON: " ++ e)

/-! ### src/server/main.rs -/

/-- A parsed socket address (`std::net::SocketAddr`): host plus port,
which is all this core reads from it (`https_addr.port()`). -/
structure SocketAddr where
  host : String
  port : Nat
deriving DecidableEq, Repr

/-- The slice of `config.main` that `start` and `run_server` read. -/
structure MainConfig where
  listen_addr : Option String
  listen_addr_ssl : Option String
  ssl_pkcs12_file : Option String
  ssl_pkcs12_pass : Option String
  num_http_threads : Option Nat
deriving DecidableEq, Repr

/-- The slice of `Config` that `run_server` reads; the github and jira
sub-configurations only select which external session constructor runs,
so only the presence of a jira configuration is kept. -/
structure Config where
  main : MainConfig
  has_jira : Bool
deriving DecidableEq, Repr

/-- `start` (src/server/main.rs):
`std::cmp::max(2, config.main.num_http_threads.unwrap_or(20))`. -/
def num_http_threads (config : Config) : Nat :=
  max 2 ((config.main.num_http_threads).getD 20)

/-- The external collaborators `run_server` calls, taken as parameters of
the embedding: session constructors (github/jira api), address parsing
(`str::parse::<SocketAddr>`), the file system (`fs::File::open` +
`read_to_end`), `Identity::from_pkcs12`, `TlsAcceptor::builder(..).build()`
and socket binding (`TcpListener::bind` / `Server::bind`), each recorded by
whether it succeeds. -/
structure Env where
  githubInit : Except String Unit
  jiraInit : Except String Unit
  parseAddr : String → Option SocketAddr
  fsRead : String → Option (List Nat)
  from_pkcs12 : List Nat → String → Option Unit
  buildAcceptor : Except String Unit
  bindOk : SocketAddr → Bool

/-- `load_identity` (src/server/main.rs): open and read the PKCS#12 file
(`.expect("cannot open pkcs12 identity file")`, with the subsequent
`read_to_end(..).unwrap()` absorbed into the same read step), then
`Identity::from_pkcs12(&bytes, pass).expect("cannot read pkcs12 identity")`.
Panics become `Except.error`. -/
def load_identity (env : Env) (filename pass : String) : Except String Unit :=
  match env.fsRead filename with
  | none => Except.error "cannot open pkcs12 identity file"
  | some bytes =>
    match env.from_pkcs12 bytes pass with
    | none => Except.error "cannot read pkcs12 identity"
    | some identity => Except.ok identity

/-- Which of the two services a listener serves: the main
`OctobotService` or the `RedirectService`. -/
inductive ServiceKind where
  | mainService
  | redirectService
deriving DecidableEq, Repr

/-- The externally visible startup actions of `run_server`, in program
order: the no-SSL warning, each successful socket bind, and each spawned
server serving a service on an address. -/
inductive StartAction where
  | warnNoSsl
  | bindListener (addr : SocketAddr)
  | serve (addr : SocketAddr) (svc : ServiceKind)
deriving DecidableEq, Repr

/-- `run_server` (src/server/main.rs), as the sequence of its fallible
startup steps with the trace of actions it performs.  Step order follows
the source: github session, jira session (only when configured),
`listen_addr` parse (default `0.0.0.0:3000`), `listen_addr_ssl` parse
(default `0.0.0.0:3001`), then the TLS decision: with `ssl_pkcs12_file`
set, `load_identity` (panic on failure) and the acceptor build (`?`);
otherwise the `"No SSL configured"` warning.  With an acceptor, the HTTPS
listener is bound (`TcpListener::bind(..).unwrap()`) and the main service
spawned on it, then the HTTP listener is bound and the redirect service
spawned on it.  Without one, only the HTTP listener is bound, serving the
main service. -/
def run_server (env : Env) (config : Config) : Except String Unit × List StartAction :=
  match env.githubInit with
  | Except.error e => (Except.error ("Error initiating github session: " ++ e), [])
  | Except.ok _ =>
  match (if config.has_jira then env.jiraInit else Except.ok ()) with
  | Except.error e => (Except.error ("Error initiating jira session: " ++ e), [])
  | Except.ok _ =>
  match env.parseAddr ((config.main.listen_addr).getD "0.0.0.0:3000") with
  | none => (Except.error "invalid listen_addr", [])
  | some http_addr =>
  match env.parseAddr ((config.main.listen_addr_ssl).getD "0.0.0.0:3001") with
  | none => (Except.error "invalid listen_addr_ssl", [])
  | some https_addr =>
  match config.main.ssl_pkcs12_file with
  | some pkcs12_file =>
    (match load_identity env pkcs12_file ((config.main.ssl_pkcs12_pass).getD "") with
     | Except.error e => (Except.error e, [])
     | Except.ok _ =>
       match env.buildAcceptor with
       | Except.error e => (Except.error e, [])
       | Except.ok _ =>
         if env.bindOk https_addr then
           if env.bindOk http_addr then
             (Except.ok (),
              [StartAction.bindListener https_addr,
               StartAction.serve https_addr ServiceKind.mainService,
               StartAction.bindListener http_addr,
               StartAction.serve http_addr ServiceKind.redirectService])
           else
             (Except.error "error binding http listener",
              [StartAction.bindListener https_addr,
               StartAction.serve https_addr ServiceKind.mainService])
         else (Except.error "error binding https listener", []))
  | none =>
    if env.bindOk http_addr then
      (Except.ok (),
       [StartAction.warnNoSsl,
        StartAction.bindListener http_addr,
        StartAction.serve http_addr ServiceKind.mainService])
    else (Except.error "error binding http listener", [StartAction.warnNoSsl])

/-- The per-connection TLS accept task spawned for each raw connection
(src/server/main.rs, inside `tcp.incoming().for_each(..)`):
`tls_acceptor.accept()` then absorb the result, `Ok(x)` to `Some(x)` and
`Err(e)` to `error!("tls error: {}", e)` plus `None` (which `filter_map`
then drops).  Connections and established TLS streams are identified by
`Nat`; the handshake outcome for a connection is the parameter `accept`.
The result is the optional established stream plus the emitted log
lines. -/
def tls_accept (accept : Nat → Except String Nat) (conn : Nat) :
    Option Nat × List String :=
  match accept conn with
  | Except.ok x => (some x, [])
  | Except.error e => (none, ["tls error: " ++ e])

/-- `Stream::for_each` as the source uses it: the body runs for each
element in order and the loop stops early only when the body itself
returns an error.  The result pairs the loop outcome with the per-element
outputs that were produced. -/
def forEachStream {α β : Type} (body : α → Except String Unit × β) :
    List α → Except String Unit × List β
  | [] => (Except.ok (), [])
  | c :: cs =>
    match body c with
    | (Except.ok _, out) =>
      ((forEachStream body cs).1, out :: (forEachStream body cs).2)
    | (Except.error e, out) => (Except.error e, [out])

/-- The HTTPS accept loop (src/server/main.rs): for each incoming raw
connection, spawn the TLS accept task (`tokio::spawn(tls_accept)`) and
return `Ok(())` to the loop unconditionally.  The spawned task itself
never returns an error (failures were absorbed into `Ok(None)`), so its
outcome is recorded as the per-element output. -/
def tlsAcceptLoop (accept : Nat → Except String Nat) (conns : List Nat) :
    Except String Unit × List (Option Nat × List String) :=
  forEachStream (fun tcp => (Except.ok (), tls_accept accept tcp)) conns

/-- Modelled from the spec: `RedirectService`
(src/server/redirect_service.rs is not part of this fragment).  The spec:
a handler built from the HTTPS port (`RedirectService::new(https_addr.port())`)
that "always responds with a 3xx redirect to the HTTPS address, preserving
the port-free location of the original request". -/
structure RedirectService where
  https_port : Nat
deriving DecidableEq, Repr

/-- Modelled from the spec: the port-free host of the request, read from
its Host header with any `:port` suffix removed. -/
def hostOf (req : Request) : String :=
  match (req.headers).lookup "Host" with
  | some h => ((h.splitOn ":").headD h)
  | none => ""

/-- Modelled from the spec: `RedirectService::handle` responds with a 3xx
redirect whose Location points at the HTTPS host and port, keeping the
request location. -/
def RedirectService.handle (svc : RedirectService) (req : Request) : Response :=
  { status := 301,
    headers := [("Location",
      "https://" ++ hostOf req ++ ":" ++ toString svc.https_port ++ req.uri)],
    body := "" }

/-! ### Filter chains built by nesting FilteredHandler -/

/-- A chain of filters in front of a terminal handler, built exactly as the
spec describes: each `FilteredHandler` "may itself be wrapped as the
`handler` of another `FilteredHandler`", outermost filter first. -/
def nestChain : List (Request → FilterResult) → (Request → Response) →
    Request → Response
  | [], h, req => h req
  | f :: fs, h, req =>
    FilteredHandler.handle (FilteredHandler.new f (nestChain fs h)) req

/-- The chain behavior in the words of the spec (the comparison point for
`nestChain`): filters are consulted in order, the first `Halt` determines
the response, and the terminal handler answers only when every filter
returned `Continue`. -/
def chainSpec : List (Request → FilterResult) → (Request → Response) →
    Request → Response
  | [], h, req => h req
  | f :: fs, h, req =>
    match f req with
    | FilterResult.Halt r => r
    | FilterResult.Continue => chainSpec fs h req

/-- The filter evaluations a chain performs on a request, in order: every
filter up to and including the first one that halts. -/
def evaluatedResults : List (Request → FilterResult) → Request →
    List FilterResult
  | [], _ => []
  | f :: fs, req =>
    match f req with
    | FilterResult.Halt r => [FilterResult.Halt r]
    | FilterResult.Continue => FilterResult.Continue :: evaluatedResults fs req

/-- Whether every filter of the chain lets this request through. -/
def allContinue (fs : List (Request → FilterResult)) (req : Request) : Bool :=
  fs.all fun f =>
    match f req with
    | FilterResult.Continue => true
    | FilterResult.Halt _ => false

/-- A spy filter for chain tracing: behaves as `f` and appends its result
to the evaluation log. -/
def spyChainFilter (f : Request → FilterResult) :
    Request → List FilterResult × Bool →
    FilterResult × (List FilterResult × Bool) :=
  fun r s => (f r, (s.1 ++ [f r], s.2))

/-- A spy terminal handler for chain tracing: behaves as `h` and sets the
flag recording that the terminal handler ran. -/
def spyChainHandler (h : Request → Response) :
    Request → List FilterResult × Bool →
    Response × (List FilterResult × Bool) :=
  fun r s => (h r, (s.1, true))

/-- The nested chain with spy instrumentation: each level is the
state-passing `FilteredHandler::handle` (`handleS`), with the spy filter at
that level and the instrumented rest of the chain as the wrapped
handler. -/
def nestChainS : List (Request → FilterResult) → (Request → Response) →
    Request → List FilterResult × Bool →
    Response × (List FilterResult × Bool)
  | [], h, req, s => spyChainHandler h req s
  | f :: fs, h, req, s => handleS (spyChainFilter f) (nestChainS fs h) req s

/-! ### Concrete inputs used by the witnesses -/

/-- A sample request. -/
def reqEx : Request :=
  { method := "GET", uri := "/hooks/github",
    headers := [("Host", "example.com:3000")], body := [[49], [50]] }

/-- A filter that halts every request with a 403 message. -/
def haltFilter : Request → FilterResult :=
  fun _ => FilterResult.Halt (new_msg_resp 403 "denied")

/-- A filter that lets every request continue. -/
def contFilter : Request → FilterResult :=
  fun _ => FilterResult.Continue

/-- A handler answering 200. -/
def okHandler : Request → Response :=
  fun _ => new_msg_resp 200 "ok"

/-- A toy deserializer standing in for `serde_json::from_slice`: accepts
exactly a one-byte body and returns that byte. -/
def fromSliceNat : List Nat → Except String Nat :=
  fun l =>
    match l with
    | [a] => Except.ok a
    | _ => Except.error "expected a single byte"

/-- A continuation for the decoder. -/
def contEx : Nat → Response := fun n => new_msg_resp 200 (toString n)

/-- A second, observably different continuation. -/
def contEx2 : Nat → Response := fun _ => new_empty_resp 204

/-- A request whose whole body parses under `fromSliceNat`. -/
def reqGood : Request :=
  { method := "POST", uri := "/", headers := [], body := [[7]] }

/-- A request whose concatenated body fails to parse under
`fromSliceNat`. -/
def reqBad : Request :=
  { method := "POST", uri := "/", headers := [], body := [[1], [2]] }

/-- A handshake outcome map: connection 1 fails its TLS handshake, every
other connection succeeds. -/
def acceptEx : Nat → Except String Nat :=
  fun c => if c == 1 then Except.error "bad handshake" else Except.ok c

/-- The default HTTP address. -/
def addrA : SocketAddr := { host := "0.0.0.0", port := 3000 }

/-- The default HTTPS address. -/
def addrB : SocketAddr := { host := "0.0.0.0", port := 3001 }

/-- An environment in which every external step succeeds. -/
def envEx : Env :=
  { githubInit := Except.ok ()
    jiraInit := Except.ok ()
    parseAddr := fun s =>
      if s == "0.0.0.0:3000" then some addrA
      else if s == "0.0.0.0:3001" then some addrB
      else none
    fsRead := fun _ => some [1, 2, 3]
    from_pkcs12 := fun _ _ => some ()
    buildAcceptor := Except.ok ()
    bindOk := fun _ => true }

/-- The same environment except that the PKCS#12 file cannot be read. -/
def envBad : Env :=
  { envEx with fsRead := fun _ => none }

/-- A configuration with a PKCS#12 bundle configured. -/
def cfgSecure : Config :=
  { main := { listen_addr := none, listen_addr_ssl := none,
              ssl_pkcs12_file := some "identity.p12",
              ssl_pkcs12_pass := some "passphrase",
              num_http_threads := some 1 }
    has_jira := false }

/-- A configuration with no PKCS#12 bundle. -/
def cfgPlain : Config :=
  { main := { listen_addr := none, listen_addr_ssl := none,
              ssl_pkcs12_file := none, ssl_pkcs12_pass := none,
              num_http_threads := none }
    has_jira := false }

/-! ### Theorems -/

/-- Claim C6: for every request, including malformed or empty ones,
`NotFoundHandler::handle` returns a response with status 404 and an empty
body. -/
theorem not_found_always_404 (req : Request) :
    NotFoundHandler.handle req = new_empty_resp 404 ∧
    (NotFoundHandler.handle req).status = 404 ∧
    (NotFoundHandler.handle req).body = "" := by
  refine ⟨rfl, rfl, rfl⟩

/-- Claim C7: `Handler::respond_error` logs the error server-side and
returns a generic 500 whose body carries none of the detail; the response
is identical for any two error strings, so nothing about the internal
failure can be inferred from it. -/
theorem respond_error_generic_500 (e1 e2 : String) :
    (Handler.respond_error e1).1 = (Handler.respond_error e2).1 ∧
    (Handler.respond_error e1).1.status = 500 ∧
    (Handler.respond_error e1).1.body = "" ∧
    (Handler.respond_error e1).2 = ["InternalServerError: " ++ e1] := by
  refine ⟨rfl, rfl, rfl, rfl⟩

/-- Claim C9: the worker-thread count is `max 2 v` when `v` is configured
and 20 when unset, with the floor of 2 always enforced. -/
theorem num_http_threads_floor_and_default (cfg : Config) :
    2 ≤ num_http_threads cfg ∧
    (∀ v, cfg.main.num_http_threads = some v →
      num_http_threads cfg = max 2 v) ∧
    (cfg.main.num_http_threads = none → num_http_threads cfg = 20) := by
  refine ⟨le_max_left _ _, fun v hv => ?_, fun hn => ?_⟩
  · simp [num_http_threads, hv]
  · simp [num_http_threads, hn]

/-- Witness for C9 at concrete configurations: a configured value of 1 is
floored to 2, and the unset default is 20. -/
theorem num_http_threads_floor_and_default_witness :
    num_http_threads cfgSecure = max 2 1 ∧
    num_http_threads cfgPlain = 20 :=
  ⟨(num_http_threads_floor_and_default cfgSecure).2.1 1 rfl,
   (num_http_threads_floor_and_default cfgPlain).2.2 rfl⟩

/-- Claim C3: `FilteredHandler::handle` returns exactly the filter response
on `Halt`, with the wrapped handler never invoked (spy handler count 0),
and returns exactly the wrapped handler response on `Continue`. -/
theorem filtered_handler_halt_continue (f : Request → FilterResult)
    (h : Request → Response) (req : Request) :
    (∀ R, f req = FilterResult.Halt R →
      FilteredHandler.handle (FilteredHandler.new f h) req = R ∧
      handleS (spyFilter f) (spyHandler h) req (0, 0) = (R, (1, 0))) ∧
    (f req = FilterResult.Continue →
      FilteredHandler.handle (FilteredHandler.new f h) req = h req ∧
      handleS (spyFilter f) (spyHandler h) req (0, 0) = (h req, (1, 1))) := by
  constructor
  · intro R hR
    constructor
    · simp [FilteredHandler.handle, FilteredHandler.new, hR]
    · simp [handleS, spyFilter, spyHandler, hR]
  · intro hC
    constructor
    · simp [FilteredHandler.handle, FilteredHandler.new, hC]
    · simp [handleS, spyFilter, spyHandler, hC]

/-- Witness for C3 at concrete inputs: a halting filter yields its own 403
without the handler running, and a continuing filter yields the handler
response with both spy counters at one. -/
theorem filtered_handler_halt_continue_witness :
    (FilteredHandler.handle (FilteredHandler.new haltFilter okHandler) reqEx =
        new_msg_resp 403 "denied" ∧
      handleS (spyFilter haltFilter) (spyHandler okHandler) reqEx (0, 0) =
        (new_msg_resp 403 "denied", (1, 0))) ∧
    (FilteredHandler.handle (FilteredHandler.new contFilter okHandler) reqEx =
        okHandler reqEx ∧
      handleS (spyFilter contFilter) (spyHandler okHandler) reqEx (0, 0) =
        (okHandler reqEx, (1, 1))) :=
  ⟨(filtered_handler_halt_continue haltFilter okHandler reqEx).1
      (new_msg_resp 403 "denied") rfl,
   (filtered_handler_halt_continue contFilter okHandler reqEx).2 rfl⟩

/-- Claim C10: `FilteredHandler::handle` evaluates its filter exactly once
(spy count 1 whether the result is Halt or Continue), the handler either
does not run or runs after the filter call completed (it observes filter
count 1, and does so exactly when the filter said Continue), and the
instrumented run computes the same response as the plain one. -/
theorem filter_evaluated_exactly_once (f : Request → FilterResult)
    (h : Request → Response) (req : Request) :
    (handleS (spyFilterC f) (spyHandlerSees h) req (0, none)).2.1 = 1 ∧
    ((handleS (spyFilterC f) (spyHandlerSees h) req (0, none)).2.2 = none ∨
      (handleS (spyFilterC f) (spyHandlerSees h) req (0, none)).2.2 = some 1) ∧
    ((handleS (spyFilterC f) (spyHandlerSees h) req (0, none)).2.2 = some 1 ↔
      f req = FilterResult.Continue) ∧
    (handleS (spyFilterC f) (spyHandlerSees h) req (0, none)).1 =
      FilteredHandler.handle (FilteredHandler.new f h) req := by
  cases hf : f req with
  | Halt R =>
    simp [handleS, spyFilterC, spyHandlerSees, FilteredHandler.handle,
      FilteredHandler.new, hf]
  | Continue =>
    simp [handleS, spyFilterC, spyHandlerSees, FilteredHandler.handle,
      FilteredHandler.new, hf]

/-- Claim C4: `parse_json` concatenates the whole body; on a successful
parse the continuation result is returned verbatim, and on a parse failure
the result is a 400 whose message names the error, with the continuation
never invoked (the result does not depend on it). -/
theorem parse_json_continuation_or_400 {T : Type}
    (fromSlice : List Nat → Except String T)
    (req : Request) (func : T → Response) :
    (∀ v, fromSlice (concat2 req.body) = Except.ok v →
      parse_json fromSlice req func = func v) ∧
    (∀ e, fromSlice (concat2 req.body) = Except.error e →
      parse_json fromSlice req func =
          new_bad_req_resp ("Failed to parse JSON: " ++ e) ∧
        (parse_json fromSlice req func).status = 400 ∧
        ∀ fn : T → Response,
          parse_json fromSlice req fn = parse_json fromSlice req func) := by
  constructor
  · intro v hv
    simp [parse_json, hv]
  · intro e he
    refine ⟨by simp [parse_json, he], by simp [parse_json, he]; rfl, fun fn => by
      simp [parse_json, he]⟩

/-- Witness for C4 at concrete inputs: a body whose chunks concatenate to
one byte is handed to the continuation, and a two-chunk body that fails
the toy parser yields the 400 with the parser error text, identically for
a different continuation. -/
theorem parse_json_continuation_or_400_witness :
    parse_json fromSliceNat reqGood contEx = contEx 7 ∧
    parse_json fromSliceNat reqBad contEx =
      new_bad_req_resp "Failed to parse JSON: expected a single byte" ∧
    (parse_json fromSliceNat reqBad contEx).status = 400 ∧
    parse_json fromSliceNat reqBad contEx2 =
      parse_json fromSliceNat reqBad contEx :=
  ⟨(parse_json_continuation_or_400 fromSliceNat reqGood contEx).1 7 rfl,
   ((parse_json_continuation_or_400 fromSliceNat reqBad contEx).2
      "expected a single byte" rfl).1,
   ((parse_json_continuation_or_400 fromSliceNat reqBad contEx).2
      "expected a single byte" rfl).2.1,
   ((parse_json_continuation_or_400 fromSliceNat reqBad contEx).2
      "expected a single byte" rfl).2.2 contEx2⟩

/-- Helper for C8: the instrumented nested chain, from any starting log,
answers as `chainSpec`, appends exactly the evaluated filter results to
the log, and raises the terminal-handler flag exactly when every filter
continued. -/
theorem nestChainS_trace (fs : List (Request → FilterResult))
    (h : Request → Response) (req : Request) (l : List FilterResult)
    (b : Bool) :
    nestChainS fs h req (l, b) =
      (chainSpec fs h req,
        (l ++ evaluatedResults fs req, b || allContinue fs req)) := by
  induction fs generalizing l b with
  | nil =>
    simp [nestChainS, spyChainHandler, chainSpec, evaluatedResults,
      allContinue]
  | cons f fs ih =>
    cases hf : f req with
    | Halt r =>
      simp [nestChainS, handleS, spyChainFilter, chainSpec,
        evaluatedResults, allContinue, hf]
    | Continue =>
      simp [nestChainS, handleS, spyChainFilter, chainSpec,
        evaluatedResults, allContinue, hf, ih]

/-- Helper for C8: the nested chain of `FilteredHandler`s computes the
first-halt semantics. -/
theorem nestChain_eq_chainSpec (fs : List (Request → FilterResult))
    (h : Request → Response) (req : Request) :
    nestChain fs h req = chainSpec fs h req := by
  induction fs with
  | nil => rfl
  | cons f fs ih =>
    cases hf : f req with
    | Halt r =>
      simp [nestChain, FilteredHandler.handle, FilteredHandler.new,
        chainSpec, hf]
    | Continue =>
      simp [nestChain, FilteredHandler.handle, FilteredHandler.new,
        chainSpec, hf, ih]

/-- Claim C8: wrapping `FilteredHandler`s inside one another yields an
ordered chain: the response is the first `Halt` encountered (otherwise the
terminal handler answers), the filters actually evaluated are exactly
those up to and including the first halting one, in outer-to-inner order,
and the terminal handler runs exactly when every filter continued. -/
theorem filtered_handler_chain (fs : List (Request → FilterResult))
    (h : Request → Response) (req : Request) :
    nestChain fs h req = chainSpec fs h req ∧
    nestChainS fs h req ([], false) =
      (nestChain fs h req,
        (evaluatedResults fs req, allContinue fs req)) := by
  refine ⟨nestChain_eq_chainSpec fs h req, ?_⟩
  rw [nestChainS_trace fs h req [] false, nestChain_eq_chainSpec fs h req]
  simp

/-- Helper for C1: a `for_each` whose body always returns `Ok(())` runs
through the whole stream and produces one output per element. -/
theorem forEachStream_const_ok {α β : Type} (g : α → β) (l : List α) :
    forEachStream (fun a => (Except.ok (), g a)) l =
      (Except.ok (), l.map g) := by
  induction l with
  | nil => rfl
  | cons c cs ih => simp [forEachStream, ih]

/-- Claim C1: the HTTPS accept loop finishes in the `Ok` state for every
sequence of incoming connections and every handshake-outcome map, each
connection gets exactly its own `tls_accept` outcome (so one connection
does not change the outcome of another, and no failure terminates the
loop), and a handshake failure on a connection is exactly logged and the
connection dropped. -/
theorem tls_handshake_failure_isolated (accept : Nat → Except String Nat)
    (conns : List Nat) :
    (tlsAcceptLoop accept conns).1 = Except.ok () ∧
    (tlsAcceptLoop accept conns).2 = conns.map (tls_accept accept) ∧
    (∀ c e, accept c = Except.error e →
      tls_accept accept c = (none, ["tls error: " ++ e])) := by
  refine ⟨?_, ?_, fun c e he => ?_⟩
  · rw [tlsAcceptLoop, forEachStream_const_ok]
  · rw [tlsAcceptLoop, forEachStream_const_ok]
  · simp [tls_accept, he]

/-- Witness for C1 at a concrete run: three connections, the middle one
failing its handshake; the loop stays `Ok`, every connection is processed
in order, and the failing one is logged and dropped while its neighbors
are served. -/
theorem tls_handshake_failure_isolated_witness :
    (tlsAcceptLoop acceptEx [0, 1, 2]).1 = Except.ok () ∧
    (tlsAcceptLoop acceptEx [0, 1, 2]).2 =
      [0, 1, 2].map (tls_accept acceptEx) ∧
    tls_accept acceptEx 1 = (none, ["tls error: bad handshake"]) :=
  ⟨(tls_handshake_failure_isolated acceptEx [0, 1, 2]).1,
   (tls_handshake_failure_isolated acceptEx [0, 1, 2]).2.1,
   (tls_handshake_failure_isolated acceptEx [0, 1, 2]).2.2 1
     "bad handshake" rfl⟩

/-- Claim C5: if a PKCS#12 file is configured and loading the identity
fails, `run_server` aborts (its result is never `Ok`) and its action trace
is empty: no listener was bound, nothing was served, and in particular the
process did not degrade to serving plaintext. -/
theorem pkcs12_failure_aborts_before_bind (env : Env) (cfg : Config)
    (pf e : String)
    (hf : cfg.main.ssl_pkcs12_file = some pf)
    (he : load_identity env pf ((cfg.main.ssl_pkcs12_pass).getD "") =
      Except.error e) :
    (∀ u : Unit, (run_server env cfg).1 ≠ Except.ok u) ∧
    (run_server env cfg).2 = [] := by
  unfold run_server
  cases hgb : env.githubInit with
  | error e1 => exact ⟨fun u hu => by simp at hu, rfl⟩
  | ok _ =>
    cases hj : (if cfg.has_jira then env.jiraInit else Except.ok ()) with
    | error e2 => exact ⟨fun u hu => by simp at hu, rfl⟩
    | ok _ =>
      cases hp1 : env.parseAddr ((cfg.main.listen_addr).getD "0.0.0.0:3000") with
      | none => exact ⟨fun u hu => by simp at hu, rfl⟩
      | some http_addr =>
        cases hp2 : env.parseAddr
            ((cfg.main.listen_addr_ssl).getD "0.0.0.0:3001") with
        | none => exact ⟨fun u hu => by simp at hu, rfl⟩
        | some https_addr =>
          rw [hf]
          simp only [he]
          exact ⟨fun u hu => by simp at hu, by trivial⟩

/-- Witness for C5 at a concrete run: with the identity file unreadable
and everything else healthy, startup does not reach the `Ok` state and the
trace is empty. -/
theorem pkcs12_failure_aborts_before_bind_witness :
    (run_server envBad cfgSecure).1 ≠ Except.ok () ∧
    (run_server envBad cfgSecure).2 = [] :=
  ⟨(pkcs12_failure_aborts_before_bind envBad cfgSecure "identity.p12"
      "cannot open pkcs12 identity file" rfl rfl).1 (),
   (pkcs12_failure_aborts_before_bind envBad cfgSecure "identity.p12"
      "cannot open pkcs12 identity file" rfl rfl).2⟩

/-- Claim C2: with the preliminary startup steps healthy, the topology is
selected exactly by whether a TLS identity was loaded.  Identity loaded:
the main service is served on the HTTPS address and the HTTP address gets
only the redirect service, whose every response is a 3xx pointing at the
HTTPS port.  No identity configured: the HTTP address serves the main
service directly and no second listener of any kind is bound (the whole
trace is the warning plus the single HTTP bind). -/
theorem serving_topology (env : Env) (cfg : Config)
    (http_addr https_addr : SocketAddr)
    (hg : env.githubInit = Except.ok ())
    (hj : (if cfg.has_jira then env.jiraInit else Except.ok ()) = Except.ok ())
    (hp1 : env.parseAddr ((cfg.main.listen_addr).getD "0.0.0.0:3000") =
      some http_addr)
    (hp2 : env.parseAddr ((cfg.main.listen_addr_ssl).getD "0.0.0.0:3001") =
      some https_addr)
    (hb : ∀ a, env.bindOk a = true) :
    (∀ pf, cfg.main.ssl_pkcs12_file = some pf →
      load_identity env pf ((cfg.main.ssl_pkcs12_pass).getD "") =
        Except.ok () →
      env.buildAcceptor = Except.ok () →
      run_server env cfg =
        (Except.ok (),
         [StartAction.bindListener https_addr,
          StartAction.serve https_addr ServiceKind.mainService,
          StartAction.bindListener http_addr,
          StartAction.serve http_addr ServiceKind.redirectService])) ∧
    (cfg.main.ssl_pkcs12_file = none →
      run_server env cfg =
        (Except.ok (),
         [StartAction.warnNoSsl,
          StartAction.bindListener http_addr,
          StartAction.serve http_addr ServiceKind.mainService])) ∧
    (∀ req,
      (RedirectService.handle { https_port := https_addr.port } req).status =
        301 ∧
      ((RedirectService.handle { https_port := https_addr.port }
          req).headers).lookup "Location" =
        some ("https://" ++ hostOf req ++ ":" ++ toString https_addr.port ++
          req.uri)) := by
  refine ⟨fun pf hpf hload hbuild => ?_, fun hnone => ?_,
    fun req => ⟨rfl, ?_⟩⟩
  · simp [run_server, hg, hj, hp1, hp2, hpf, hload, hbuild, hb]
  · simp [run_server, hg, hj, hp1, hp2, hnone, hb]
  · simp [RedirectService.handle, List.lookup]

/-- Witness for C2 at concrete runs: with a healthy environment, the
secure configuration serves main on the HTTPS address and the redirect
service on the HTTP address, the plain configuration serves main on the
HTTP address only, and the redirect answer for a sample request is a 301
at the HTTPS port. -/
theorem serving_topology_witness :
    run_server envEx cfgSecure =
      (Except.ok (),
       [StartAction.bindListener addrB,
        StartAction.serve addrB ServiceKind.mainService,
        StartAction.bindListener addrA,
        StartAction.serve addrA ServiceKind.redirectService]) ∧
    run_server envEx cfgPlain =
      (Except.ok (),
       [StartAction.warnNoSsl,
        StartAction.bindListener addrA,
        StartAction.serve addrA ServiceKind.mainService]) ∧
    (RedirectService.handle { https_port := addrB.port } reqEx).status = 301 ∧
    ((RedirectService.handle { https_port := addrB.port }
        reqEx).headers).lookup "Location" =
      some ("https://" ++ hostOf reqEx ++ ":" ++ toString addrB.port ++
        reqEx.uri) :=
  ⟨(serving_topology envEx cfgSecure addrA addrB rfl rfl rfl rfl
      (fun _ => rfl)).1 "identity.p12" rfl rfl rfl,
   (serving_topology envEx cfgPlain addrA addrB rfl rfl rfl rfl
      (fun _ => rfl)).2.1 rfl,
   ((serving_topology envEx cfgSecure addrA addrB rfl rfl rfl rfl
      (fun _ => rfl)).2.2 reqEx).1,
   ((serving_topology envEx cfgSecure addrA addrB rfl rfl rfl rfl
      (fun _ => rfl)).2.2 reqEx).2⟩
